import Mathlib

/-!
Shallow embedding of the event-photo backend (Yeabkal66/Try-BOTH).

The repository holds three variants of one Express + Telegram-bot server.
The primary variant is `src/unnamed/part_000` (Firestore): it has the full
creation state machine (welcomeText .. preloadedPhotos), the auto-complete
finalization, the guest-upload admission route, and the sorted read paths.
`src/server.js` concatenates two Mongo variants; its first variant (lines
1-357) has the admission route that folds a missing event into the generic
400 rejection, and its second variant (lines 358-629) has the unsorted
`GET /api/events/:eventId` read path and the same auto-complete logic.

Machine state is passed explicitly: a `World` carries the volatile session
map (`userStates`), the events collection and the photos collection.
Database writes that may throw are modelled by explicit success flags;
timestamps are `Nat`; JS `parseInt` is modelled faithfully (whitespace and
sign skipping, 0x prefix, longest digit prefix, trailing garbage ignored).
-/

/-- `serviceType`: one of the three tokens accepted in the serviceType step. -/
inductive ServiceType
  | both
  | viewalbum
  | uploadpics
deriving DecidableEq

/-- Event `status`: starts `active`; the disable flow moves it to `disabled`. -/
inductive Status
  | active
  | disabled
deriving DecidableEq

/-- `uploadType` of a stored photo record. -/
inductive UploadType
  | preloaded
  | guest
deriving DecidableEq

/-- Result of a media-store upload: `{ public_id, url }` (Cloudinary helper). -/
structure MediaRef where
  public_id : String
  url : String
deriving DecidableEq

/-- One entry of the draft `preloadedPhotos` array
(part_000 lines 233-237: `{ public_id, url, uploadedAt }`). -/
structure PreloadedPhoto where
  public_id : String
  url : String
  uploadedAt : Nat
deriving DecidableEq

/-- The session draft `userState.eventData` (part_000 lines 112-122).
Fields that are filled in by later steps start as `none`; the fields set
by `/start` (eventId, createdBy, preloadedPhotos, status, uploadedCount,
expectedPhotoCount) are always present. -/
structure EventData where
  eventId : String
  createdBy : String
  preloadedPhotos : List PreloadedPhoto
  status : Status
  uploadedCount : Nat
  expectedPhotoCount : Int
  welcomeText : Option String := none
  description : Option String := none
  backgroundImage : Option MediaRef := none
  serviceType : Option ServiceType := none
  uploadLimit : Option Int := none
deriving DecidableEq

/-- A stored event document: the spread draft plus `createdAt`/`updatedAt`
(part_000 lines 55-61). -/
structure EventDoc where
  data : EventData
  createdAt : Nat
  updatedAt : Nat
deriving DecidableEq

/-- A stored photo document (part_000 lines 69-76 and 354-365). -/
structure PhotoDoc where
  eventId : String
  public_id : String
  url : String
  uploadType : UploadType
  uploaderIp : Option String
  uploaderAgent : Option String
  approved : Bool
  uploadedAt : Nat
deriving DecidableEq

/-- The creation steps plus the orthogonal disable step (`userState.step`). -/
inductive Step
  | welcomeText
  | description
  | backgroundImage
  | serviceType
  | uploadLimit
  | expectedPhotoCount
  | preloadedPhotos
  | eventIdForDisable
deriving DecidableEq

/-- One entry of the `userStates` map. `/start` installs a draft;
`/disable` installs `\x7b step: 'eventIdForDisable' \x7d` with no draft,
so the draft is optional (part_000 lines 112 and 263). -/
structure UserState where
  step : Step
  eventData : Option EventData
deriving DecidableEq

/-- The whole mutable state: the in-process session map and the two
durable collections. -/
structure World where
  userStates : List (String × UserState)
  events : List (String × EventDoc)
  photos : List PhotoDoc
deriving DecidableEq

/-- Key lookup in an association list (JS `Map.get` / keyed document get). -/
def lookupKV {α : Type} (k : String) : List (String × α) → Option α
  | [] => none
  | (k1, v) :: rest => if k1 = k then some v else lookupKV k rest

/-- Key set in an association list: replace the existing binding or append
(JS `Map.set` / Firestore `doc(id).set`). -/
def setKV {α : Type} (k : String) (v : α) : List (String × α) → List (String × α)
  | [] => [(k, v)]
  | (k1, v1) :: rest => if k1 = k then (k, v) :: rest else (k1, v1) :: setKV k v rest

/-- Key delete in an association list (JS `Map.delete`; keys are unique in
a JS Map, so removing every binding of the key is the same operation). -/
def deleteKV {α : Type} (k : String) : List (String × α) → List (String × α)
  | [] => []
  | (k1, v1) :: rest => if k1 = k then deleteKV k rest else (k1, v1) :: deleteKV k rest

/-- Whitespace skipped by JS `parseInt`: the ECMAScript WhiteSpace and
LineTerminator characters — TAB, LF, VT, FF, CR, SP, NBSP, the Unicode
space separators (U+1680, U+2000..U+200A, U+202F, U+205F, U+3000), the
line and paragraph separators LS/PS, and ZWNBSP. -/
def isJsSpace (c : Char) : Bool :=
  decide (c.toNat = 0x09 ∨ c.toNat = 0x0A ∨ c.toNat = 0x0B ∨ c.toNat = 0x0C ∨
    c.toNat = 0x0D ∨ c.toNat = 0x20 ∨ c.toNat = 0xA0 ∨ c.toNat = 0x1680 ∨
    (0x2000 ≤ c.toNat ∧ c.toNat ≤ 0x200A) ∨ c.toNat = 0x2028 ∨ c.toNat = 0x2029 ∨
    c.toNat = 0x202F ∨ c.toNat = 0x205F ∨ c.toNat = 0x3000 ∨ c.toNat = 0xFEFF)

/-- Decimal digit value of a character, if any. -/
def decDigit? (c : Char) : Option Nat :=
  if '0' ≤ c ∧ c ≤ '9' then some (c.toNat - '0'.toNat) else none

/-- Hexadecimal digit value of a character, if any. -/
def hexDigit? (c : Char) : Option Nat :=
  if '0' ≤ c ∧ c ≤ '9' then some (c.toNat - '0'.toNat)
  else if 'a' ≤ c ∧ c ≤ 'f' then some (c.toNat - 'a'.toNat + 10)
  else if 'A' ≤ c ∧ c ≤ 'F' then some (c.toNat - 'A'.toNat + 10)
  else none

/-- Longest prefix of digit values: JS `parseInt` stops at the first
character that is not a digit of the radix. -/
def takeDigits (f : Char → Option Nat) : List Char → List Nat
  | [] => []
  | c :: cs =>
    match f c with
    | some d => d :: takeDigits f cs
    | none => []

/-- Value of a digit list in the given base. -/
def digitsVal (base : Nat) (ds : List Nat) : Nat :=
  ds.foldl (fun a d => a * base + d) 0

/-- Optional leading sign, as in JS `parseInt`. -/
def jsSignSplit (cs : List Char) : Int × List Char :=
  match cs with
  | '-' :: rest => (-1, rest)
  | '+' :: rest => (1, rest)
  | _ => (1, cs)

/-- Radix detection of JS `parseInt` with no radix argument: a `0x`/`0X`
prefix selects base 16, otherwise base 10. -/
def jsBaseSplit (cs : List Char) : Nat × List Char :=
  match cs with
  | '0' :: 'x' :: rest => (16, rest)
  | '0' :: 'X' :: rest => (16, rest)
  | _ => (10, cs)

/-- JS `parseInt(s)`: skip whitespace, optional sign, optional `0x`, then
read the longest digit prefix; `none` models `NaN` (no digits at all).
Trailing non-digit characters are ignored. -/
def jsParseInt (s : String) : Option Int :=
  let t := s.data.dropWhile isJsSpace
  let sp := jsSignSplit t
  let bp := jsBaseSplit sp.2
  let ds := takeDigits (if bp.1 = 16 then hexDigit? else decDigit?) bp.2
  if ds = [] then none
  else some (sp.1 * (digitsVal bp.1 ds : Int))

/-- The serviceType step accepts exactly the three slash tokens and strips
the slash (part_000 lines 158-167). -/
def parseServiceTypeTok (text : String) : Option ServiceType :=
  if text = "/both" then some ServiceType.both
  else if text = "/viewalbum" then some ServiceType.viewalbum
  else if text = "/uploadpics" then some ServiceType.uploadpics
  else none

def msgTooLong100 : String := "Too long! Max 100 chars:"
def msgAskDescription : String := "Now enter description (max 200 chars):"
def msgTooLong200 : String := "Too long! Max 200 chars:"
def msgAskBackground : String := "Now send background image:"
def msgBadServiceType : String := "Use /both, /viewalbum, or /uploadpics"
def msgAskUploadLimit : String := "Enter upload limit for guests (50-5000):"
def msgBadUploadLimit : String := "Enter number 50-5000:"
def msgAskExpectedCount : String := "How many preloaded photos will you send?"
def msgBadExpectedCount : String := "Please enter a valid number (1 or more):"
def msgAskPreloaded : String := "Great! Now send the preloaded photos."
def msgEventNotFound : String := "Event not found"
def msgDisabledOk : String := "Uploads disabled for event"
def msgBackgroundSet : String := "Background set! Choose a service type"
def msgPhotoFailed : String := "Failed to upload image"
def msgProgress : String := "Photo added, more to go"
def msgFinal : String := "Final photo added"
def msgCreating : String := "All photos received! Creating your event..."
def msgCreated : String := "Event Created Successfully!"
def msgCreateFailed : String := "Failed to create event"

/-- Result of one text-handler invocation: the new world and the replies
sent to the organizer. -/
structure TextResult where
  w : World
  msgs : List String
deriving DecidableEq

/-- The bot text handler of part_000 (lines 128-211).  A message from an
identity with no session is ignored.  Each creation step either fully
validates its input (advancing the step and filling one draft field) or
replies a re-prompt and leaves everything unchanged.  The disable step
looks the candidate id up: if absent it replies an error and RETURNS,
skipping the `userStates.delete` that sits after the try/catch, so the
session survives; if present it writes `status: 'disabled'` with a fresh
`updatedAt` and then deletes the session.  The creation arms read the
draft; a creation step is only ever installed together with a draft, so
the `none` draft arms are unreachable in program runs. -/
def handleTextF (now : Nat) (w : World) (userId text : String) : TextResult :=
  match lookupKV userId w.userStates with
  | none => ⟨w, []⟩
  | some us =>
    match us.step with
    | Step.welcomeText =>
      match us.eventData with
      | none => ⟨w, []⟩
      | some d =>
        if 100 < text.length then ⟨w, [msgTooLong100]⟩
        else
          let us1 : UserState := ⟨Step.description, some { d with welcomeText := some text }⟩
          ⟨{ w with userStates := setKV userId us1 w.userStates }, [msgAskDescription]⟩
    | Step.description =>
      match us.eventData with
      | none => ⟨w, []⟩
      | some d =>
        if 200 < text.length then ⟨w, [msgTooLong200]⟩
        else
          let us1 : UserState := ⟨Step.backgroundImage, some { d with description := some text }⟩
          ⟨{ w with userStates := setKV userId us1 w.userStates }, [msgAskBackground]⟩
    | Step.serviceType =>
      match us.eventData with
      | none => ⟨w, []⟩
      | some d =>
        match parseServiceTypeTok text with
        | none => ⟨w, [msgBadServiceType]⟩
        | some st =>
          let us1 : UserState := ⟨Step.uploadLimit, some { d with serviceType := some st }⟩
          ⟨{ w with userStates := setKV userId us1 w.userStates }, [msgAskUploadLimit]⟩
    | Step.uploadLimit =>
      match us.eventData with
      | none => ⟨w, []⟩
      | some d =>
        match jsParseInt text with
        | none => ⟨w, [msgBadUploadLimit]⟩
        | some v =>
          if v < 50 ∨ 5000 < v then ⟨w, [msgBadUploadLimit]⟩
          else
            let us1 : UserState := ⟨Step.expectedPhotoCount, some { d with uploadLimit := some v }⟩
            ⟨{ w with userStates := setKV userId us1 w.userStates }, [msgAskExpectedCount]⟩
    | Step.expectedPhotoCount =>
      match us.eventData with
      | none => ⟨w, []⟩
      | some d =>
        match jsParseInt text with
        | none => ⟨w, [msgBadExpectedCount]⟩
        | some v =>
          if v < 1 then ⟨w, [msgBadExpectedCount]⟩
          else
            let us1 : UserState := ⟨Step.preloadedPhotos, some { d with expectedPhotoCount := v }⟩
            ⟨{ w with userStates := setKV userId us1 w.userStates }, [msgAskPreloaded]⟩
    | Step.backgroundImage => ⟨w, []⟩
    | Step.preloadedPhotos => ⟨w, []⟩
    | Step.eventIdForDisable =>
      match lookupKV text w.events with
      | none => ⟨w, [msgEventNotFound]⟩
      | some e =>
        let e1 : EventDoc := { e with data := { e.data with status := Status.disabled }, updatedAt := now }
        let w1 : World :=
          { w with events := setKV text e1 w.events, userStates := deleteKV userId w.userStates }
        ⟨w1, [msgDisabledOk]⟩

/-- The photo document written for one draft entry during finalization
(part_000 lines 69-76): `uploadType: 'preloaded'`, `approved: true`. -/
def photoDocOfPreloaded (eid : String) (p : PreloadedPhoto) : PhotoDoc :=
  ⟨eid, p.public_id, p.url, UploadType.preloaded, none, none, true, p.uploadedAt⟩

/-- The per-photo save loop of finalization (part_000 lines 68-80): photos
are written one at a time; `fIdx` marks the first write that throws, so
earlier writes stay persisted and the loop reports failure. -/
def savePreloaded (eid : String) (fIdx : Option Nat) :
    Nat → List PreloadedPhoto → List PhotoDoc → List PhotoDoc × Bool
  | _, [], store => (store, true)
  | i, p :: ps, store =>
    if fIdx = some i then (store, false)
    else savePreloaded eid fIdx (i + 1) ps (store ++ [photoDocOfPreloaded eid p])

/-- Result of a finalization attempt: the new world, the replies, and
whether the success reply was reached. -/
structure FinalizeResult where
  w : World
  msgs : List String
  success : Bool
deriving DecidableEq

/-- `autoCompleteEvent` of part_000 (lines 50-103; same logic at
server.js lines 431-467).  Inside the try: write the event document
(`ewOk = false` models that write throwing), write the preloaded photos
one by one, reply success, and only then `userStates.delete`.  The catch
arm only replies a failure message: on any failed write the session is
NOT removed from the store. -/
def autoCompleteF (now : Nat) (ewOk : Bool) (fIdx : Option Nat) (w : World) (d : EventData) :
    FinalizeResult :=
  if ewOk then
    let events := setKV d.eventId ⟨d, now, now⟩ w.events
    let saved := savePreloaded d.eventId fIdx 0 d.preloadedPhotos w.photos
    if saved.2 then
      ⟨⟨deleteKV d.createdBy w.userStates, events, saved.1⟩, [msgCreating, msgCreated], true⟩
    else
      ⟨⟨w.userStates, events, saved.1⟩, [msgCreating, msgCreateFailed], false⟩
  else
    ⟨w, [msgCreating, msgCreateFailed], false⟩

/-- Result of one photo-handler invocation: the new world, the replies,
and how many times finalization was triggered by this invocation. -/
structure PhotoResult where
  w : World
  msgs : List String
  fired : Nat
deriving DecidableEq

/-- The bot photo handler of part_000 (lines 214-258; preloaded branch
lines 229-252).  `mediaOk = false` models the media-store upload throwing
(caught: reply only, no state change).  In the preloaded branch the photo
is appended, `uploadedCount` incremented and the session stored; then
`remaining = expectedPhotoCount - uploadedCount` decides between a
progress reply (stay in the step) and triggering finalization. -/
def handlePhotoF (now : Nat) (mediaOk : Bool) (up : MediaRef) (ewOk : Bool) (fIdx : Option Nat)
    (w : World) (userId : String) : PhotoResult :=
  match lookupKV userId w.userStates with
  | none => ⟨w, [], 0⟩
  | some us =>
    match us.step with
    | Step.backgroundImage =>
      match us.eventData with
      | none => ⟨w, [], 0⟩
      | some d =>
        if mediaOk then
          let us1 : UserState := ⟨Step.serviceType, some { d with backgroundImage := some up }⟩
          ⟨{ w with userStates := setKV userId us1 w.userStates }, [msgBackgroundSet], 0⟩
        else ⟨w, [msgPhotoFailed], 0⟩
    | Step.preloadedPhotos =>
      match us.eventData with
      | none => ⟨w, [], 0⟩
      | some d =>
        if mediaOk then
          let d1 : EventData :=
            { d with preloadedPhotos := d.preloadedPhotos ++ [⟨up.public_id, up.url, now⟩],
                     uploadedCount := d.uploadedCount + 1 }
          let w1 : World :=
            { w with userStates := setKV userId ⟨Step.preloadedPhotos, some d1⟩ w.userStates }
          if 0 < d1.expectedPhotoCount - (d1.uploadedCount : Int) then
            ⟨w1, [msgProgress], 0⟩
          else
            let r := autoCompleteF now ewOk fIdx w1 d1
            ⟨r.w, msgFinal :: r.msgs, 1⟩
        else ⟨w, [msgPhotoFailed], 0⟩
    | _ => ⟨w, [], 0⟩

/-- The non-quota rejection test of the admission controller
(part_000 line 329: `status === 'disabled' || serviceType === 'viewalbum'`). -/
def uploadsBlocked (d : EventData) : Bool :=
  decide (d.status = Status.disabled ∨ d.serviceType = some ServiceType.viewalbum)

/-- The `uploadEnabled` flag of the event-detail read path
(part_000 line 311: `status === 'active' && serviceType !== 'viewalbum'`). -/
def uploadEnabled (d : EventData) : Bool :=
  decide (d.status = Status.active) && decide (¬ d.serviceType = some ServiceType.viewalbum)

/-- The quota count of the admission controller (part_000 lines 334-338):
guest photos of the event whose `uploaderInfo.ip` equals the requester
address; note no `approved` filter. -/
def countGuestByIp (photos : List PhotoDoc) (eid ip : String) : Nat :=
  (photos.filter (fun p =>
    decide (p.eventId = eid ∧ p.uploadType = UploadType.guest ∧ p.uploaderIp = some ip))).length

/-- The quota test (part_000 line 340): `snapshot.size >= event.uploadLimit`.
A JS comparison against an undefined `uploadLimit` is false, so an event
with no limit never trips the quota. -/
def uploadLimitReached (d : EventData) (count : Nat) : Bool :=
  match d.uploadLimit with
  | some lim => decide (lim ≤ (count : Int))
  | none => false

/-- Outcome of one guest-upload request. -/
inductive AdmitResult
  | notFound
  | denied (msg : String)
  | serverError
  | ok (photo : PhotoDoc)
deriving DecidableEq

/-- The guest photo document written on admission (part_000 lines 354-365). -/
def guestPhotoDoc (eid ip ua : String) (up : MediaRef) (now : Nat) : PhotoDoc :=
  ⟨eid, up.public_id, up.url, UploadType.guest, some ip, some ua, true, now⟩

/-- `POST /api/upload/:eventId` of part_000 (lines 320-374).  Missing
event: 404 not-found.  Disabled or view-album event: 400 denial.  Quota
reached for this origin address: 400 denial.  Otherwise the media upload
and the photo write run (`upstreamOk = false` models either throwing:
caught as a 500 with nothing persisted) and the new record is returned.
Returns the new photos collection and the outcome. -/
def admitF (w : World) (eid ip ua : String) (up : MediaRef) (now : Nat) (upstreamOk : Bool) :
    List PhotoDoc × AdmitResult :=
  match lookupKV eid w.events with
  | none => (w.photos, AdmitResult.notFound)
  | some e =>
    if uploadsBlocked e.data then
      (w.photos, AdmitResult.denied "Uploads not allowed")
    else if uploadLimitReached e.data (countGuestByIp w.photos eid ip) then
      (w.photos, AdmitResult.denied "Upload limit reached")
    else if upstreamOk then
      let p := guestPhotoDoc eid ip ua up now
      (w.photos ++ [p], AdmitResult.ok p)
    else (w.photos, AdmitResult.serverError)

/-- `POST /api/upload/:eventId` of server.js first variant (lines 290-331):
`if (!event || event.status === 'disabled' || event.serviceType === 'viewalbum')`
returns the SAME 400 denial for a missing event as for a blocked one; the
rest matches the Firestore route. -/
def admitM (w : World) (eid ip ua : String) (up : MediaRef) (now : Nat) (upstreamOk : Bool) :
    List PhotoDoc × AdmitResult :=
  match lookupKV eid w.events with
  | none => (w.photos, AdmitResult.denied "Uploads not allowed")
  | some e =>
    if uploadsBlocked e.data then
      (w.photos, AdmitResult.denied "Uploads not allowed")
    else if uploadLimitReached e.data (countGuestByIp w.photos eid ip) then
      (w.photos, AdmitResult.denied "Upload limit reached")
    else if upstreamOk then
      let p := guestPhotoDoc eid ip ua up now
      (w.photos ++ [p], AdmitResult.ok p)
    else (w.photos, AdmitResult.serverError)

/-- Retrieval order relation: later `uploadedAt` first. -/
def photoGE (a b : PhotoDoc) : Prop :=
  b.uploadedAt ≤ a.uploadedAt

instance : DecidableRel photoGE := fun a b => Nat.decLe b.uploadedAt a.uploadedAt

instance : IsTotal PhotoDoc photoGE :=
  ⟨fun a b => Nat.le_total b.uploadedAt a.uploadedAt⟩

instance : IsTrans PhotoDoc photoGE :=
  ⟨fun _ _ _ hab hbc => Nat.le_trans hbc hab⟩

/-- `orderBy('uploadedAt', 'desc')` / `.sort(\x7b uploadedAt: -1 \x7d)`:
a stable sort into descending `uploadedAt` order. -/
def sortDesc (l : List PhotoDoc) : List PhotoDoc :=
  List.insertionSort photoGE l

/-- Executable check that a photo list is in descending `uploadedAt` order. -/
def sortedDescB : List PhotoDoc → Bool
  | [] => true
  | [_] => true
  | a :: b :: rest => decide (b.uploadedAt ≤ a.uploadedAt) && sortedDescB (b :: rest)

/-- The preloaded partition filter (eventId and `uploadType: 'preloaded'`). -/
def preloadedOf (photos : List PhotoDoc) (eid : String) : List PhotoDoc :=
  photos.filter (fun p => decide (p.eventId = eid ∧ p.uploadType = UploadType.preloaded))

/-- The guest-approved partition filter (eventId, `uploadType: 'guest'`,
`approved: true`). -/
def guestApprovedOf (photos : List PhotoDoc) (eid : String) : List PhotoDoc :=
  photos.filter (fun p =>
    decide (p.eventId = eid ∧ p.uploadType = UploadType.guest ∧ p.approved = true))

/-- `GET /api/album/:eventId` of part_000 (lines 377-403): both partitions,
each ordered by `uploadedAt` descending; no event lookup, no side effect. -/
def albumF (photos : List PhotoDoc) (eid : String) : List PhotoDoc × List PhotoDoc :=
  (sortDesc (preloadedOf photos eid), sortDesc (guestApprovedOf photos eid))

/-- Payload of `GET /api/events/:eventId` of part_000 (lines 279-317). -/
structure EventDetail where
  event : EventDoc
  preloadedPhotos : List PhotoDoc
  guestPhotos : List PhotoDoc
  uploadEnabled : Bool
deriving DecidableEq

/-- `GET /api/events/:eventId` of part_000 (lines 279-317): 404 when the
event is missing, otherwise the event, both partitions ordered by
`uploadedAt` descending, and the `uploadEnabled` flag. -/
def eventDetailF (w : World) (eid : String) : Option EventDetail :=
  match lookupKV eid w.events with
  | none => none
  | some e =>
    some ⟨e, sortDesc (preloadedOf w.photos eid), sortDesc (guestApprovedOf w.photos eid),
          uploadEnabled e.data⟩

/-- `GET /api/events/:eventId` of the second server.js variant (lines
608-620): the same partition filters but `.find` carries NO `.sort`, so
each partition comes back in collection order, and no `uploadEnabled`
field is computed. -/
def eventDetailM2 (w : World) (eid : String) :
    Option (EventDoc × List PhotoDoc × List PhotoDoc) :=
  match lookupKV eid w.events with
  | none => none
  | some e => some (e, preloadedOf w.photos eid, guestApprovedOf w.photos eid)

/-- Modelled from the spec: the uploadLimit step of the claim accepts
"an integer literal whose value lies in [50, 5000]".  An integer literal
here is a nonempty string of decimal digits (the range is positive, so no
sign is needed).  This definition follows the claim wording and is
compared against the code path, which runs JS `parseInt` instead. -/
def specIsIntegerLiteral (s : String) : Bool :=
  decide (s.data ≠ []) && s.data.all (fun c => decide ('0' ≤ c ∧ c ≤ '9'))

/-- Which inputs each creation step rejects with a re-prompt
(part_000 lines 135-191): over-length text, an unknown service token, a
parseInt failure or out-of-range number.  Steps without a text validator
never hit a rejection arm, so they get `False`. -/
def invalidInput : Step → String → Prop
  | Step.welcomeText, t => 100 < t.length
  | Step.description, t => 200 < t.length
  | Step.serviceType, t => parseServiceTypeTok t = none
  | Step.uploadLimit, t => ∀ v, jsParseInt t = some v → v < 50 ∨ 5000 < v
  | Step.expectedPhotoCount, t => ∀ v, jsParseInt t = some v → v < 1
  | _, _ => False

/-! Concrete fixtures used by counterexamples and witnesses. -/

/-- A generic media-store result. -/
def fixMedia : MediaRef := ⟨"pid1", "purl1"⟩

/-- A fully-filled draft for organizer `u7` expecting one preloaded photo. -/
def fixDraft : EventData :=
  { eventId := "EVT_A", createdBy := "u7", preloadedPhotos := [], status := Status.active,
    uploadedCount := 0, expectedPhotoCount := 1, welcomeText := some "hi",
    description := some "dd", backgroundImage := some ⟨"bg", "bgu"⟩,
    serviceType := some ServiceType.both, uploadLimit := some 100 }

/-- Organizer `u7` sitting in the preloaded-photos step. -/
def fixSession : UserState := ⟨Step.preloadedPhotos, some fixDraft⟩

/-- World holding only the `u7` session. -/
def fixWorld : World := ⟨[("u7", fixSession)], [], []⟩

/-- A draft for organizer `u1` that has not yet passed the service-type or
upload-limit steps. -/
def fixDraft2 : EventData :=
  { eventId := "EVT_B", createdBy := "u1", preloadedPhotos := [], status := Status.active,
    uploadedCount := 0, expectedPhotoCount := 0, welcomeText := some "w",
    description := some "d", backgroundImage := some ⟨"b", "bu"⟩ }

/-- Organizer `u1` in the service-type step. -/
def fixWorld5 : World := ⟨[("u1", ⟨Step.serviceType, some fixDraft2⟩)], [], []⟩

/-- Organizer `u1` in the upload-limit step. -/
def fixWorld7 : World := ⟨[("u1", ⟨Step.uploadLimit, some fixDraft2⟩)], [], []⟩

/-- A stored active event `E1` with upload limit 50. -/
def fixEventDoc3 : EventDoc := ⟨{ fixDraft with eventId := "E1", uploadLimit := some 50 }, 0, 0⟩

/-- World holding only event `E1`. -/
def fixWorld3 : World := ⟨[], [("E1", fixEventDoc3)], []⟩

/-- Organizer `u9` in the disable step, with no stored events. -/
def fixDisableWorld : World := ⟨[("u9", ⟨Step.eventIdForDisable, none⟩)], [], []⟩

/-- Organizer `u9` in the disable step, with event `E1` stored. -/
def fixWorldC2 : World := ⟨[("u9", ⟨Step.eventIdForDisable, none⟩)], [("E1", fixEventDoc3)], []⟩

/-- Preloaded photo of event `E` with the older timestamp. -/
def fixPhoto1 : PhotoDoc := ⟨"E", "a", "ua", UploadType.preloaded, none, none, true, 1⟩

/-- Preloaded photo of event `E` with the newer timestamp. -/
def fixPhoto2 : PhotoDoc := ⟨"E", "b", "ub", UploadType.preloaded, none, none, true, 2⟩

/-- A stored event `E`. -/
def fixEventDoc6 : EventDoc := ⟨{ fixDraft with eventId := "E" }, 0, 0⟩

/-- World with event `E` and its two preloaded photos stored in
chronological (ascending) collection order. -/
def fixWorld6 : World := ⟨[], [("E", fixEventDoc6)], [fixPhoto1, fixPhoto2]⟩

/-- A stored disabled event `ED`. -/
def fixEventDocDis : EventDoc :=
  ⟨{ fixDraft with eventId := "ED", status := Status.disabled }, 0, 0⟩

/-- World holding only the disabled event `ED`. -/
def fixWorldDis : World := ⟨[], [("ED", fixEventDocDis)], []⟩

/-- World with no sessions, events or photos. -/
def fixWorldEmpty : World := ⟨[], [], []⟩

/-- The event-detail payload produced after finalizing `fixDraft` at time 3. -/
def fixDD9 : EventDetail := ⟨⟨fixDraft, 3, 3⟩, [], [], true⟩

/-! Helper lemmas about the store operations and the sort. -/

theorem lookupKV_setKV_self {α : Type} (k : String) (v : α) :
    ∀ l : List (String × α), lookupKV k (setKV k v l) = some v
  | [] => by simp [setKV, lookupKV]
  | (k1, v1) :: rest => by
    by_cases h : k1 = k
    · simp [setKV, h, lookupKV]
    · simp [setKV, h, lookupKV, lookupKV_setKV_self k v rest]

theorem lookupKV_deleteKV_self {α : Type} (k : String) :
    ∀ l : List (String × α), lookupKV k (deleteKV k l) = none
  | [] => by simp [deleteKV, lookupKV]
  | (k1, v1) :: rest => by
    by_cases h : k1 = k
    · simp [deleteKV, h, lookupKV_deleteKV_self k rest]
    · simp [deleteKV, h, lookupKV, lookupKV_deleteKV_self k rest]

theorem savePreloaded_none_ok (eid : String) :
    ∀ (i : Nat) (ps : List PreloadedPhoto) (store : List PhotoDoc),
      (savePreloaded eid none i ps store).2 = true
  | _, [], _ => rfl
  | i, p :: ps, store => by
    simp only [savePreloaded, reduceCtorEq, if_false]
    exact savePreloaded_none_ok eid (i + 1) ps (store ++ [photoDocOfPreloaded eid p])

theorem sortedDescB_of_sorted : ∀ l : List PhotoDoc, List.Sorted photoGE l → sortedDescB l = true
  | [], _ => rfl
  | [_], _ => rfl
  | a :: b :: rest, h => by
    rw [List.sorted_cons] at h
    have hab : photoGE a b := h.1 b (List.mem_cons_self b rest)
    have ht := sortedDescB_of_sorted (b :: rest) h.2
    simp only [sortedDescB, ht, Bool.and_true, decide_eq_true_eq]
    exact hab

theorem sortDesc_sorted (l : List PhotoDoc) : List.Sorted photoGE (sortDesc l) :=
  List.sorted_insertionSort photoGE l

theorem sortDesc_perm (l : List PhotoDoc) : List.Perm (sortDesc l) l :=
  List.perm_insertionSort photoGE l

/-! Claim theorems. -/

/-- C1 (counterexample): finalization is attempted on the `u7` session with
the Event write failing; afterwards the failure is reported but the session
is still in the store, refuting that the session is removed when a
persistence write fails. -/
theorem c1_counterexample :
    (autoCompleteF 3 false none fixWorld fixDraft).success = false ∧
    lookupKV "u7" (autoCompleteF 3 false none fixWorld fixDraft).w.userStates =
      some fixSession := by
  decide

/-- C1 (amended): after a finalization attempt the organizer session is
removed exactly on the success path; when the Event write or a Photo write
fails, the catch arm only replies and the session map is left unchanged. -/
theorem c1_session_after_finalize (now : Nat) (ewOk : Bool) (fIdx : Option Nat)
    (w : World) (d : EventData) :
    ((autoCompleteF now ewOk fIdx w d).success = true →
      lookupKV d.createdBy (autoCompleteF now ewOk fIdx w d).w.userStates = none) ∧
    ((autoCompleteF now ewOk fIdx w d).success = false →
      (autoCompleteF now ewOk fIdx w d).w.userStates = w.userStates) := by
  by_cases hew : ewOk = true
  · cases hsv : (savePreloaded d.eventId fIdx 0 d.preloadedPhotos w.photos).2
    · simp [autoCompleteF, hew, hsv]
    · simp [autoCompleteF, hew, hsv, lookupKV_deleteKV_self]
  · have hew2 : ewOk = false := by
      cases ewOk
      · rfl
      · exact absurd rfl hew
    simp [autoCompleteF, hew2]

/-- C1 (witness): the amended statement evaluated on the `u7` session with
every write succeeding. -/
theorem c1_session_after_finalize_witness :
    ((autoCompleteF 3 true none fixWorld fixDraft).success = true →
      lookupKV fixDraft.createdBy (autoCompleteF 3 true none fixWorld fixDraft).w.userStates =
        none) ∧
    ((autoCompleteF 3 true none fixWorld fixDraft).success = false →
      (autoCompleteF 3 true none fixWorld fixDraft).w.userStates = fixWorld.userStates) :=
  c1_session_after_finalize 3 true none fixWorld fixDraft

/-- C2 (counterexample): a candidate identifier that matches no stored
Event makes the disable flow reply an error and RETURN before the
`userStates.delete` line, so the session survives in the
awaiting-event-id-for-disable step — refuting that the session is
destroyed when the Event does not exist. -/
theorem c2_counterexample :
    (handleTextF 0 fixDisableWorld "u9" "EVT_X").msgs = [msgEventNotFound] ∧
    lookupKV "u9" (handleTextF 0 fixDisableWorld "u9" "EVT_X").w.userStates =
      some ⟨Step.eventIdForDisable, none⟩ := by
  decide

/-- C2 (amended): in the disable step, a candidate identifier that matches
a stored Event gets its status set to disabled and the session destroyed;
an identifier that matches nothing gets an error reply and the whole world
— the session included — is left unchanged, so the organizer can retry
within the same session. -/
theorem c2_disable_amended (now : Nat) (w : World) (uid text : String) (ed : Option EventData)
    (hlook : lookupKV uid w.userStates = some ⟨Step.eventIdForDisable, ed⟩) :
    (∀ e, lookupKV text w.events = some e →
      lookupKV uid (handleTextF now w uid text).w.userStates = none ∧
      lookupKV text (handleTextF now w uid text).w.events =
        some { e with data := { e.data with status := Status.disabled }, updatedAt := now } ∧
      (handleTextF now w uid text).msgs = [msgDisabledOk]) ∧
    (lookupKV text w.events = none →
      (handleTextF now w uid text).w = w ∧
      (handleTextF now w uid text).msgs = [msgEventNotFound]) := by
  constructor
  · intro e he
    simp [handleTextF, hlook, he, lookupKV_deleteKV_self, lookupKV_setKV_self]
  · intro he
    simp [handleTextF, hlook, he]

/-- C2 (witness): the amended statement evaluated with event `E1` stored;
the session is destroyed after a successful disable. -/
theorem c2_disable_amended_witness :
    lookupKV "u9" (handleTextF 5 fixWorldC2 "u9" "E1").w.userStates = none :=
  ((c2_disable_amended 5 fixWorldC2 "u9" "E1" none (by decide)).1
    fixEventDoc3 (by decide)).1

/-- C3 (confirmed): the guest-upload admission of part_000.  For an event
stored under the requested identifier and carrying an upload limit, the
request is admitted — appending exactly one new guest photo record —
if and only if the event is not disabled, is not a view-album event, and
the requester origin address has strictly fewer guest photos on this event
than the limit; every other outcome leaves the photo collection unchanged,
and a missing event is rejected without a write in any world. -/
theorem c3_admission (w : World) (eid ip ua : String) (up : MediaRef) (now : Nat)
    (e : EventDoc) (lim : Int)
    (hl : lookupKV eid w.events = some e) (hLim : e.data.uploadLimit = some lim) :
    ((∃ p, (admitF w eid ip ua up now true).2 = AdmitResult.ok p) ↔
      (e.data.status ≠ Status.disabled ∧ e.data.serviceType ≠ some ServiceType.viewalbum ∧
        (countGuestByIp w.photos eid ip : Int) < lim)) ∧
    (∀ p, (admitF w eid ip ua up now true).2 = AdmitResult.ok p →
      (admitF w eid ip ua up now true).1 = w.photos ++ [p]) ∧
    ((∀ p, (admitF w eid ip ua up now true).2 ≠ AdmitResult.ok p) →
      (admitF w eid ip ua up now true).1 = w.photos) ∧
    (∀ w2 : World, lookupKV eid w2.events = none →
      (admitF w2 eid ip ua up now true).2 = AdmitResult.notFound ∧
      (admitF w2 eid ip ua up now true).1 = w2.photos) := by
  have hmissing : ∀ w2 : World, lookupKV eid w2.events = none →
      (admitF w2 eid ip ua up now true).2 = AdmitResult.notFound ∧
      (admitF w2 eid ip ua up now true).1 = w2.photos := by
    intro w2 h2
    simp [admitF, h2]
  by_cases hb : (e.data.status = Status.disabled ∨ e.data.serviceType = some ServiceType.viewalbum)
  · have hb2 : uploadsBlocked e.data = true := by simpa [uploadsBlocked] using hb
    have hres : admitF w eid ip ua up now true = (w.photos, AdmitResult.denied "Uploads not allowed") := by
      simp [admitF, hl, hb2]
    refine ⟨?_, ?_, ?_, hmissing⟩
    · rw [hres]
      constructor
      · rintro ⟨p, hp⟩
        exact absurd hp (by simp)
      · rintro ⟨h1, h2, _⟩
        rcases hb with hb | hb
        · exact absurd hb h1
        · exact absurd hb h2
    · intro p hp
      rw [hres] at hp
      exact absurd hp (by simp)
    · intro _
      rw [hres]
  · have hb2 : uploadsBlocked e.data = false := by simpa [uploadsBlocked] using hb
    rw [not_or] at hb
    by_cases hq : lim ≤ (countGuestByIp w.photos eid ip : Int)
    · have hq2 : uploadLimitReached e.data (countGuestByIp w.photos eid ip) = true := by
        simpa [uploadLimitReached, hLim] using hq
      have hres : admitF w eid ip ua up now true =
          (w.photos, AdmitResult.denied "Upload limit reached") := by
        simp [admitF, hl, hb2, hq2]
      refine ⟨?_, ?_, ?_, hmissing⟩
      · rw [hres]
        constructor
        · rintro ⟨p, hp⟩
          exact absurd hp (by simp)
        · rintro ⟨_, _, hlt⟩
          exact absurd hq (not_le.mpr hlt)
      · intro p hp
        rw [hres] at hp
        exact absurd hp (by simp)
      · intro _
        rw [hres]
    · have hq2 : uploadLimitReached e.data (countGuestByIp w.photos eid ip) = false := by
        simp [uploadLimitReached, hLim]
        exact not_le.mp hq
      have hres : admitF w eid ip ua up now true =
          (w.photos ++ [guestPhotoDoc eid ip ua up now], AdmitResult.ok (guestPhotoDoc eid ip ua up now)) := by
        simp [admitF, hl, hb2, hq2]
      refine ⟨?_, ?_, ?_, hmissing⟩
      · rw [hres]
        constructor
        · intro _
          exact ⟨hb.1, hb.2, not_le.mp hq⟩
        · intro _
          exact ⟨guestPhotoDoc eid ip ua up now, rfl⟩
      · intro p hp
        rw [hres] at hp
        simp only [AdmitResult.ok.injEq] at hp
        rw [hres, hp]
      · intro hnone
        exact absurd (by rw [hres]) (hnone (guestPhotoDoc eid ip ua up now))

/-- C3 (witness): in a world holding the active event `E1` with limit 50
and no photos, a first request from a fresh origin address is admitted. -/
theorem c3_admission_witness :
    ∃ p, (admitF fixWorld3 "E1" "10.0.0.1" "agent" fixMedia 7 true).2 = AdmitResult.ok p :=
  (c3_admission fixWorld3 "E1" "10.0.0.1" "agent" fixMedia 7 fixEventDoc3 50
      (by decide) (by decide)).1.mpr (by decide)

theorem handlePhotoF_no_session (now : Nat) (mediaOk : Bool) (up : MediaRef) (ewOk : Bool)
    (fIdx : Option Nat) (w : World) (uid : String)
    (h : lookupKV uid w.userStates = none) :
    handlePhotoF now mediaOk up ewOk fIdx w uid = ⟨w, [], 0⟩ := by
  simp [handlePhotoF, h]

/-- C4 (counterexample): organizer `u7` expects 1 preloaded photo.  The
first photo triggers finalization, whose Event write fails, so the session
survives; a second photo then triggers finalization again — refuting that
finalization never fires twice for the same session. -/
theorem c4_counterexample :
    (handlePhotoF 1 true fixMedia false none fixWorld "u7").fired = 1 ∧
    (handlePhotoF 2 true fixMedia false none
        (handlePhotoF 1 true fixMedia false none fixWorld "u7").w "u7").fired = 1 := by
  decide

/-- C4 (amended): in the preloaded-photos step, after each accepted image
the handler computes `remaining = expectedPhotoCount - uploadedCount`.
While `remaining` is positive it reports progress and the session stays in
the step with the photo appended; finalization triggers exactly when
`remaining ≤ 0` (not only at 0: after a failed finalization the count can
pass the expectation); and when the finalization writes all succeed the
session is destroyed, so a following photo from the same organizer is
ignored and finalization cannot fire a second time. -/
theorem c4_preloaded_amended (now : Nat) (up : MediaRef) (ewOk : Bool) (fIdx : Option Nat)
    (w : World) (uid : String) (d : EventData)
    (hlook : lookupKV uid w.userStates = some ⟨Step.preloadedPhotos, some d⟩)
    (hcb : d.createdBy = uid) :
    (0 < d.expectedPhotoCount - ((d.uploadedCount + 1 : Nat) : Int) →
      (handlePhotoF now true up ewOk fIdx w uid).fired = 0 ∧
      (handlePhotoF now true up ewOk fIdx w uid).msgs = [msgProgress] ∧
      lookupKV uid (handlePhotoF now true up ewOk fIdx w uid).w.userStates =
        some ⟨Step.preloadedPhotos,
          some { d with preloadedPhotos := d.preloadedPhotos ++ [⟨up.public_id, up.url, now⟩],
                        uploadedCount := d.uploadedCount + 1 }⟩) ∧
    (d.expectedPhotoCount - ((d.uploadedCount + 1 : Nat) : Int) ≤ 0 →
      (handlePhotoF now true up ewOk fIdx w uid).fired = 1) ∧
    (d.expectedPhotoCount - ((d.uploadedCount + 1 : Nat) : Int) ≤ 0 → ewOk = true → fIdx = none →
      lookupKV uid (handlePhotoF now true up ewOk fIdx w uid).w.userStates = none ∧
      (handlePhotoF now true up ewOk fIdx (handlePhotoF now true up ewOk fIdx w uid).w uid).fired
        = 0) := by
  refine ⟨?_, ?_, ?_⟩
  · intro hrem
    have hrem2 : ((d.uploadedCount : Int) + 1) < d.expectedPhotoCount := by omega
    simp [handlePhotoF, hlook, hrem2, lookupKV_setKV_self]
  · intro hrem
    have hrem2 : ¬ ((d.uploadedCount : Int) + 1 < d.expectedPhotoCount) := by omega
    simp [handlePhotoF, hlook, hrem2]
  · intro hrem hew hfi
    subst hew
    subst hfi
    have hrem2 : ¬ ((d.uploadedCount : Int) + 1 < d.expectedPhotoCount) := by omega
    have hgone : lookupKV uid (handlePhotoF now true up true none w uid).w.userStates = none := by
      simp [handlePhotoF, hlook, hrem2, autoCompleteF, savePreloaded_none_ok, hcb,
        lookupKV_deleteKV_self]
    exact ⟨hgone, by rw [handlePhotoF_no_session _ _ _ _ _ _ _ hgone]⟩

/-- C4 (witness): the amended statement evaluated on the `u7` session with
`expectedPhotoCount = 1` and all writes succeeding: the photo triggers
finalization, the session disappears, and a second photo fires nothing. -/
theorem c4_preloaded_amended_witness :
    lookupKV "u7" (handlePhotoF 4 true fixMedia true none fixWorld "u7").w.userStates = none ∧
    (handlePhotoF 4 true fixMedia true none
        (handlePhotoF 4 true fixMedia true none fixWorld "u7").w "u7").fired = 0 :=
  (c4_preloaded_amended 4 fixMedia true none fixWorld "u7" fixDraft (by decide) rfl).2.2
    (by decide) rfl rfl

/-- C5 (confirmed): for every creation step with a text validator
(welcome text, description, service type, upload limit, expected count)
and every input that validator rejects, the handler leaves the whole world
— session step and draft included — exactly as it was and emits exactly
one re-prompt message. -/
theorem c5_invalid_input_frame (now : Nat) (w : World) (uid text : String)
    (st : Step) (d : EventData)
    (hlook : lookupKV uid w.userStates = some ⟨st, some d⟩)
    (hinv : invalidInput st text) :
    (handleTextF now w uid text).w = w ∧ (handleTextF now w uid text).msgs.length = 1 := by
  cases st
  case welcomeText =>
    have h : 100 < text.length := hinv
    simp [handleTextF, hlook, h]
  case description =>
    have h : 200 < text.length := hinv
    simp [handleTextF, hlook, h]
  case serviceType =>
    have h : parseServiceTypeTok text = none := hinv
    simp [handleTextF, hlook, h]
  case uploadLimit =>
    have h : ∀ v, jsParseInt text = some v → v < 50 ∨ 5000 < v := hinv
    cases hp : jsParseInt text with
    | none => simp [handleTextF, hlook, hp]
    | some v =>
      have hr := h v hp
      simp [handleTextF, hlook, hp, hr]
  case expectedPhotoCount =>
    have h : ∀ v, jsParseInt text = some v → v < 1 := hinv
    cases hp : jsParseInt text with
    | none => simp [handleTextF, hlook, hp]
    | some v =>
      have hr := h v hp
      simp [handleTextF, hlook, hp, hr]
  case backgroundImage => exact hinv.elim
  case preloadedPhotos => exact hinv.elim
  case eventIdForDisable => exact hinv.elim

/-- C5 (witness): an unknown service-type token leaves the `u1` session
bit-for-bit unchanged and produces one re-prompt. -/
theorem c5_invalid_input_frame_witness :
    (handleTextF 0 fixWorld5 "u1" "hello").w = fixWorld5 ∧
    (handleTextF 0 fixWorld5 "u1" "hello").msgs.length = 1 :=
  c5_invalid_input_frame 0 fixWorld5 "u1" "hello" Step.serviceType fixDraft2 (by decide)
    (by show parseServiceTypeTok "hello" = none; decide)

/-- C6 (counterexample): event `E` has two preloaded photos stored in
ascending timestamp order.  The event-detail read path of the second
server.js variant issues `.find` with no `.sort`, so it returns the
partition in collection order — here ascending, not `uploadedAt`
descending — refuting that every event-detail read path orders the
sequences by `uploadedAt` descending. -/
theorem c6_counterexample :
    eventDetailM2 fixWorld6 "E" = some (fixEventDoc6, [fixPhoto1, fixPhoto2], []) ∧
    sortedDescB [fixPhoto1, fixPhoto2] = false := by
  decide

/-- C6 (amended): the album read path and the part_000 event-detail read
path return the preloaded / guest-approved partition with each sequence
sorted by `uploadedAt` descending (each a permutation of the matching
filter of the store); the event-detail path of the second server.js
variant returns the same partition but in raw collection order, with no
sorting applied. -/
theorem c6_read_paths (w : World) (eid : String) :
    sortedDescB (albumF w.photos eid).1 = true ∧
    sortedDescB (albumF w.photos eid).2 = true ∧
    List.Perm (albumF w.photos eid).1 (preloadedOf w.photos eid) ∧
    List.Perm (albumF w.photos eid).2 (guestApprovedOf w.photos eid) ∧
    (∀ dd, eventDetailF w eid = some dd →
      sortedDescB dd.preloadedPhotos = true ∧ sortedDescB dd.guestPhotos = true ∧
      List.Perm dd.preloadedPhotos (preloadedOf w.photos eid) ∧
      List.Perm dd.guestPhotos (guestApprovedOf w.photos eid)) ∧
    (∀ e, lookupKV eid w.events = some e →
      eventDetailM2 w eid = some (e, preloadedOf w.photos eid, guestApprovedOf w.photos eid)) := by
  refine ⟨sortedDescB_of_sorted _ (sortDesc_sorted _), sortedDescB_of_sorted _ (sortDesc_sorted _),
    sortDesc_perm _, sortDesc_perm _, ?_, ?_⟩
  · intro dd hdd
    cases he : lookupKV eid w.events with
    | none => simp [eventDetailF, he] at hdd
    | some e =>
      rw [eventDetailF, he] at hdd
      injection hdd with hdd
      subst hdd
      exact ⟨sortedDescB_of_sorted _ (sortDesc_sorted _), sortedDescB_of_sorted _ (sortDesc_sorted _),
        sortDesc_perm _, sortDesc_perm _⟩
  · intro e he
    simp [eventDetailM2, he]

/-- C6 (witness): the amended statement evaluated on the two-photo world:
the unsorted Mongo payload comes back in store order. -/
theorem c6_read_paths_witness :
    eventDetailM2 fixWorld6 "E" =
      some (fixEventDoc6, preloadedOf fixWorld6.photos "E", guestApprovedOf fixWorld6.photos "E") :=
  (c6_read_paths fixWorld6 "E").2.2.2.2.2 fixEventDoc6 (by decide)

/-- C7 (counterexample): the input `100abc` is not an integer literal, yet
`parseInt` reads its leading digits, so the upload-limit step accepts it,
stores 100 and advances — refuting that an input is accepted only if it is
an integer literal in [50, 5000]. -/
theorem c7_counterexample :
    specIsIntegerLiteral "100abc" = false ∧
    lookupKV "u1" (handleTextF 0 fixWorld7 "u1" "100abc").w.userStates =
      some ⟨Step.expectedPhotoCount, some { fixDraft2 with uploadLimit := some 100 }⟩ ∧
    (handleTextF 0 fixWorld7 "u1" "100abc").msgs = [msgAskExpectedCount] := by
  decide

/-- C7 (amended): in the upload-limit step an input is accepted — storing
the parsed value and advancing the step — exactly when JS `parseInt`
extracts from it a value in [50, 5000]; leading whitespace, a sign, a hex
prefix and trailing non-digit characters are tolerated, so acceptance is
not limited to integer literals.  Inputs whose parse fails or falls out of
range get a re-prompt and the world is unchanged. -/
theorem c7_uploadLimit (now : Nat) (w : World) (uid text : String) (d : EventData)
    (hlook : lookupKV uid w.userStates = some ⟨Step.uploadLimit, some d⟩) :
    (∀ v, jsParseInt text = some v → ¬ (v < 50 ∨ 5000 < v) →
      (handleTextF now w uid text).w.userStates =
        setKV uid ⟨Step.expectedPhotoCount, some { d with uploadLimit := some v }⟩ w.userStates ∧
      (handleTextF now w uid text).w.events = w.events ∧
      (handleTextF now w uid text).msgs = [msgAskExpectedCount]) ∧
    ((∀ v, jsParseInt text = some v → (v < 50 ∨ 5000 < v)) →
      (handleTextF now w uid text).w = w ∧
      (handleTextF now w uid text).msgs = [msgBadUploadLimit]) := by
  constructor
  · intro v hv hr
    simp [handleTextF, hlook, hv, hr]
  · intro hrej
    cases hp : jsParseInt text with
    | none => simp [handleTextF, hlook, hp]
    | some v =>
      have hr := hrej v hp
      simp [handleTextF, hlook, hp, hr]

/-- C7 (witness): the amended statement evaluated on the plain literal
`100`: accepted, stored, step advanced. -/
theorem c7_uploadLimit_witness :
    (handleTextF 0 fixWorld7 "u1" "100").w.userStates =
      setKV "u1" ⟨Step.expectedPhotoCount, some { fixDraft2 with uploadLimit := some 100 }⟩
        fixWorld7.userStates ∧
    (handleTextF 0 fixWorld7 "u1" "100").w.events = fixWorld7.events ∧
    (handleTextF 0 fixWorld7 "u1" "100").msgs = [msgAskExpectedCount] :=
  (c7_uploadLimit 0 fixWorld7 "u1" "100" fixDraft2 (by decide)).1 100 (by decide) (by decide)

/-- C8 (counterexample): in the server.js admission route an unknown event
identifier produces the very same 400 denial payload as a disabled event,
and that outcome is not the not-found outcome — refuting that every guest
upload against an unknown identifier fails with a distinct not-found
error. -/
theorem c8_counterexample :
    (admitM fixWorldEmpty "EX" "ip" "ua" fixMedia 0 true).2 =
      AdmitResult.denied "Uploads not allowed" ∧
    (admitM fixWorldDis "ED" "ip" "ua" fixMedia 0 true).2 =
      AdmitResult.denied "Uploads not allowed" ∧
    AdmitResult.denied "Uploads not allowed" ≠ AdmitResult.notFound := by
  decide

/-- C8 (amended): only the part_000 admission route gives an unknown event
identifier a distinct 404 not-found outcome (different from every denial,
with no photo written); the server.js admission route folds the missing
event into the same 400 "Uploads not allowed" denial used for disabled and
read-only events. -/
theorem c8_not_found (w : World) (eid ip ua : String) (up : MediaRef) (now : Nat)
    (upstreamOk : Bool) (h : lookupKV eid w.events = none) :
    (admitF w eid ip ua up now upstreamOk).2 = AdmitResult.notFound ∧
    (admitF w eid ip ua up now upstreamOk).1 = w.photos ∧
    (∀ msg, AdmitResult.notFound ≠ AdmitResult.denied msg) ∧
    (admitM w eid ip ua up now upstreamOk).2 = AdmitResult.denied "Uploads not allowed" ∧
    (admitM w eid ip ua up now upstreamOk).1 = w.photos := by
  refine ⟨?_, ?_, ?_, ?_, ?_⟩ <;> simp [admitF, admitM, h]

/-- C8 (witness): the amended statement evaluated on the empty world. -/
theorem c8_not_found_witness :
    (admitF fixWorldEmpty "EX" "ip" "ua" fixMedia 0 true).2 = AdmitResult.notFound :=
  (c8_not_found fixWorldEmpty "EX" "ip" "ua" fixMedia 0 true (by decide)).1

/-- C9 (confirmed): when finalization persists the Event (the Event write
succeeds), fetching that event through the part_000 event-detail read path
afterwards yields exactly the draft values of `welcomeText`,
`description`, `serviceType` and `uploadLimit`, whatever the outcome of
the photo writes. -/
theorem c9_roundtrip (now : Nat) (fIdx : Option Nat) (w : World) (d : EventData)
    (dd : EventDetail)
    (h : eventDetailF (autoCompleteF now true fIdx w d).w d.eventId = some dd) :
    dd.event.data.welcomeText = d.welcomeText ∧
    dd.event.data.description = d.description ∧
    dd.event.data.serviceType = d.serviceType ∧
    dd.event.data.uploadLimit = d.uploadLimit := by
  have hev : (autoCompleteF now true fIdx w d).w.events =
      setKV d.eventId ⟨d, now, now⟩ w.events := by
    cases hsv : (savePreloaded d.eventId fIdx 0 d.preloadedPhotos w.photos).2
    · simp [autoCompleteF, hsv]
    · simp [autoCompleteF, hsv]
  rw [eventDetailF, hev, lookupKV_setKV_self] at h
  injection h with h
  subst h
  exact ⟨rfl, rfl, rfl, rfl⟩

/-- C9 (witness): finalizing `fixDraft` and fetching `EVT_A` returns the
draft fields unchanged. -/
theorem c9_roundtrip_witness :
    fixDD9.event.data.welcomeText = fixDraft.welcomeText ∧
    fixDD9.event.data.description = fixDraft.description ∧
    fixDD9.event.data.serviceType = fixDraft.serviceType ∧
    fixDD9.event.data.uploadLimit = fixDraft.uploadLimit :=
  c9_roundtrip 3 none fixWorld fixDraft fixDD9 (by decide)

/-- C10 (confirmed): the `uploadEnabled` flag computed by the event-detail
read path equals the negation of the admission route's non-quota rejection
test `status = disabled or serviceType = viewalbum`, for every possible
event record — the two paths can never disagree about whether a
non-quota-limited upload is permitted. -/
theorem c10_uploadEnabled_matches_admission (d : EventData) :
    uploadEnabled d = ! uploadsBlocked d := by
  obtain ⟨_, _, _, st, _, _, _, _, _, sv, _⟩ := d
  cases st <;> rcases sv with _ | s <;> try rfl
  all_goals cases s <;> rfl
